import Mathlib

/-!
Verification of the PR Harvesting and Summarization Pipeline (src/main.py).

The Python source is shallowly embedded as executable Lean definitions:
strings are handled through explicit `List Char` helpers mirroring the
Python string primitives used by the source (`strip`, `split`,
`startswith`, `replace`), network endpoints become oracle functions
passed as arguments (the paginated listing, the per-PR diff endpoint,
and the text-generation model), and the unbounded `while` loop of the
collector becomes a fuel-indexed recursion whose fuel is shown to be
sufficient for every finite listing.
-/

namespace PRHarvest

/-- Mirror of Python `str.strip` restricted to whitespace: drop
whitespace from both ends of the character list. -/
def pyStrip (s : List Char) : List Char :=
  ((s.dropWhile Char.isWhitespace).reverse.dropWhile Char.isWhitespace).reverse

/-- Mirror of Python `str.split(sep)` for a one-character separator:
`splitOnChar sep s` cuts `s` at every occurrence of `sep`, keeping empty
segments (so a trailing separator yields a trailing empty segment, as in
Python). -/
def splitOnChar (sep : Char) : List Char → List (List Char)
  | [] => [[]]
  | c :: rest =>
    match splitOnChar sep rest with
    | [] => [[]]
    | seg :: segs => if c = sep then [] :: seg :: segs else (c :: seg) :: segs

/-- Mirror of Python `s.startswith(pat)`. -/
def pyStartswith (pat s : List Char) : Bool :=
  s.take pat.length == pat

/-- Worker for `pyReplace`: scan left to right; at each position, if the
pattern is a prefix, drop it and continue after it (non-overlapping, as
Python `str.replace(pat, "")` does); otherwise keep the character.  The
fuel argument only serves structural recursion; `s.length` fuel is
always enough because every step consumes at least one unit of fuel and
never grows the remaining input. -/
def replaceAllAux (pat : List Char) : Nat → List Char → List Char
  | _, [] => []
  | 0, s => s
  | fuel + 1, c :: rest =>
    if pyStartswith pat (c :: rest) then
      replaceAllAux pat fuel ((c :: rest).drop pat.length)
    else
      c :: replaceAllAux pat fuel rest

/-- Mirror of Python `s.replace(pat, "")`: remove every (non-overlapping,
leftmost-first) occurrence of `pat` from `s`. -/
def pyReplace (pat s : List Char) : List Char :=
  replaceAllAux pat s.length s

/-- The literal label prefix scanned for the generated title. -/
def titleTag : List Char := "TITLE:".toList

/-- The literal label prefix scanned for the generated summary. -/
def summaryTag : List Char := "SUMMARY:".toList

/-- `parse_repo` (src/main.py lines 9-12):
`parts = url.strip().split("/"); return parts[-2], parts[-1]`.
Python negative indexing raises an uncaught `IndexError` when the split
yields fewer than two parts; the `none` result models that uncaught
exception. -/
def parse_repo (url : String) : Option (String × String) :=
  let parts := (splitOnChar '/' (pyStrip url.toList)).map (fun l => String.mk l)
  if h : 2 ≤ parts.length then
    some (parts.get ⟨parts.length - 2, by omega⟩,
          parts.get ⟨parts.length - 1, by omega⟩)
  else
    none

/-- `get_pr_diff` (src/main.py lines 15-31).  The HTTP GET for the diff
is abstracted by `diffOracle`: `some text` is a 200 response with body
`text`, `none` is any non-success status.  On non-success the source
prints a diagnostic and returns the empty string. -/
def get_pr_diff (diffOracle : Nat → Option String) (pr_number : Nat) : String :=
  match diffOracle pr_number with
  | some t => t
  | none => ""

/-- The response-parsing loop of `ask_gemini` (src/main.py lines 71-77):
fold over the lines, stripping each; a line starting with `TITLE:` sets
the title field to the line with every occurrence of `TITLE:` removed and
then stripped; otherwise a line starting with `SUMMARY:` sets the summary
field likewise.  Later matching lines overwrite earlier ones. -/
def parseLines : List (List Char) → List Char × List Char → List Char × List Char
  | [], ts => ts
  | line :: rest, ts =>
    let l := pyStrip line
    if pyStartswith titleTag l then
      parseLines rest (pyStrip (pyReplace titleTag l), ts.2)
    else if pyStartswith summaryTag l then
      parseLines rest (ts.1, pyStrip (pyReplace summaryTag l))
    else
      parseLines rest ts

/-- The response parser of `ask_gemini` (src/main.py lines 71-79): split
the model response into lines and scan them, starting from empty title
and summary fields. -/
def parseResponse (text : String) : String × String :=
  let r := parseLines (splitOnChar '\n' text.toList) ([], [])
  (String.mk r.1, String.mk r.2)

/-- The fixed prompt template of `ask_gemini` (src/main.py lines 46-61). -/
def promptFor (diff_text : String) : String :=
  "\nYou are a code reviewer assistant.\nGiven the following GitHub pull request diff, produce:\n\n1) A short, meaningful, professional title for the PR.\n2) A concise summary explaining the change in 2-3 sentences.\n\nOutput EXACTLY in this format:\n\nTITLE: <generated title>\nSUMMARY: <generated summary>\n---\n\nDIFF:\n"
    ++ diff_text ++ "\n"

/-- `ask_gemini` (src/main.py lines 34-83).  The model is abstracted by
`modelOracle`: `some text` is a successful call whose response object
carries `text`, `none` is a thrown exception or a falsy response, both of
which the source converts to empty fields.  An empty diff returns
immediately; a diff longer than 8000 characters is cropped to its first
8000 characters before being embedded in the prompt. -/
def ask_gemini (modelOracle : String → Option String) (diff_text : String) :
    String × String :=
  if diff_text = "" then ("", "")
  else
    let cropped :=
      if 8000 < diff_text.length then String.mk (diff_text.toList.take 8000)
      else diff_text
    match modelOracle (promptFor cropped) with
    | none => ("", "")
    | some rtext => parseResponse (String.mk (pyStrip rtext.toList))

/-- A pull-request record as returned by the closed-PR listing endpoint
(the fields of the JSON objects that src/main.py reads: `number`,
`title`, `body`, `merged_at`).  `title` and `body` are optional because
the JSON values may be null; presence of `merged_at` is the sole merge
predicate. -/
structure PR where
  number : Nat
  title : Option String
  body : Option String
  merged_at : Option String
deriving DecidableEq, Repr

/-- Result of the collection loop: the merged PRs gathered, the number
of page requests issued, and whether a listing failure was hit (in which
case the source prints a diagnostic and breaks). -/
structure CollectState where
  merged : List PR
  pagesRequested : Nat
  listingError : Bool
deriving DecidableEq, Repr

/-- The inner `for pr in data` loop of `main` (src/main.py lines
140-145): append each merged PR of the page in page order, breaking out
as soon as the accumulated count reaches `n`. -/
def takeMerged (n : Int) : List PR → List PR → List PR
  | acc, [] => acc
  | acc, pr :: rest =>
    if pr.merged_at.isSome then
      if ((acc ++ [pr]).length : Int) = n then acc ++ [pr]
      else takeMerged n (acc ++ [pr]) rest
    else
      takeMerged n acc rest

/-- The `while len(merged_prs) < n_prs` loop of `main` (src/main.py
lines 110-147).  `listing` abstracts the paginated GET: `.ok data` is a
200 response with JSON array `data`, `.error ()` any non-success status
(on which the source prints a diagnostic and breaks, keeping the partial
accumulator).  An empty page also breaks (exhaustion).  The fuel bounds
the number of iterations; `none` means the fuel ran out before the loop
exited. -/
def collectLoop (listing : Nat → Except Unit (List PR)) (n : Int) :
    Nat → Nat → List PR → Nat → Option CollectState
  | 0, _, _, _ => none
  | fuel + 1, page, acc, reqs =>
    if (acc.length : Int) < n then
      match listing page with
      | .error _ => some ⟨acc, reqs + 1, true⟩
      | .ok data =>
        if data.isEmpty then some ⟨acc, reqs + 1, false⟩
        else collectLoop listing n fuel (page + 1) (takeMerged n acc data) (reqs + 1)
    else
      some ⟨acc, reqs, false⟩

/-- A well-formed paginated listing backed by one finite list of closed
PRs in the upstream order (most recently updated first): page `p`
(1-based, `per_page = 100`) returns the corresponding 100-item slice,
and pages past the end are empty.  Every page succeeds. -/
def listingOf (items : List PR) : Nat → Except Unit (List PR) :=
  fun page => .ok ((items.drop ((page - 1) * 100)).take 100)

/-- The collection phase of `main` run against a well-formed finite
listing, starting from page 1 with an empty accumulator and enough fuel
for the whole listing. -/
def collectPRs (items : List PR) (n : Int) : Option CollectState :=
  collectLoop (listingOf items) n (items.length + 1) 1 [] 0

/-- Upper bound on the page requests issued by the collection loop when
the remaining portion of the listing holds `L` items: the number of
100-item slices, rounded up, plus one trailing probe. -/
def pageBound (L : Nat) : Nat :=
  (L + 99) / 100 + 1

/-- One row of results.csv (src/main.py lines 171-177). -/
structure ReportRow where
  number : Nat
  originalTitle : String
  generatedTitle : String
  originalBody : String
  generatedSummary : String
deriving DecidableEq, Repr

/-- The row-assembly loop of `main` (src/main.py lines 155-177): for
each collected PR in order, fetch its diff, summarize it, and assemble
one row (`pr["title"] or ""` and `pr["body"] or ""` default null fields
to the empty string). -/
def buildRows (diffOracle : Nat → Option String)
    (modelOracle : String → Option String) (prs : List PR) : List ReportRow :=
  prs.map (fun pr =>
    let diff := get_pr_diff diffOracle pr.number
    let ts := ask_gemini modelOracle diff
    ⟨pr.number, pr.title.getD "", ts.1, pr.body.getD "", ts.2⟩)

/-- The configuration read from config.py by `main` (src/main.py lines
87-90). -/
structure Config where
  repo_url : String
  github_token : String
  gemini_key : String
  n_prs : Int

/-- Observable outcome of one run of `main`:
`configError` is the early return after the missing-keys message
(no report written); `crash` is the uncaught IndexError escaping
`parse_repo`; `noMerged` is the early return after the no-merged-PRs
message (no report written), recording the page requests issued and
whether a listing failure was printed; `report` is the normal path that
writes results.csv with the given rows. -/
inductive RunOutcome where
  | configError
  | crash
  | noMerged (pagesRequested : Nat) (listingError : Bool)
  | report (rows : List ReportRow) (pagesRequested : Nat) (listingError : Bool)
deriving DecidableEq, Repr

/-- `main` (src/main.py lines 86-194), with the three network
collaborators abstracted as oracles and the loop fuel made explicit.
Control flow follows the source: validate that the three string inputs
are non-empty (the target count is not validated), parse the repo URL,
collect merged PRs page by page, return early when none were collected,
otherwise assemble one row per PR and write the report. -/
def main (cfg : Config) (listing : Nat → Except Unit (List PR))
    (diffOracle : Nat → Option String) (modelOracle : String → Option String)
    (fuel : Nat) : RunOutcome :=
  if cfg.repo_url = "" || cfg.github_token = "" || cfg.gemini_key = "" then
    .configError
  else
    match parse_repo cfg.repo_url with
    | none => .crash
    | some _ownerRepo =>
      match collectLoop listing cfg.n_prs fuel 1 [] 0 with
      | none => .noMerged 0 false
      | some st =>
        if st.merged.isEmpty then .noMerged st.pagesRequested st.listingError
        else .report (buildRows diffOracle modelOracle st.merged)
              st.pagesRequested st.listingError

/-- A concrete merged PR used in concrete evaluations. -/
def prM : PR := ⟨1, some "t", some "b", some "2024-01-01T00:00:00Z"⟩

/-- A concrete non-merged (closed but unmerged) PR. -/
def prU : PR := ⟨2, some "u", none, none⟩

/-- A second concrete merged PR. -/
def prM2 : PR := ⟨3, some "t3", none, some "2024-02-02T00:00:00Z"⟩

/-- A listing whose first page holds one merged PR and whose second page
request fails with a non-success status. -/
def listingFail : Nat → Except Unit (List PR) :=
  fun page => if page = 1 then .ok [prM] else .error ()

/-- A diff oracle on which every diff request fails (non-success). -/
def diffFailAll : Nat → Option String := fun _ => none

/-- A model oracle that always answers with a well-formed two-line
response. -/
def modelAlways : String → Option String :=
  fun _ => some "TITLE: X\nSUMMARY: Y"

/-- A fully valid configuration asking for two PRs. -/
def cfgOk : Config := ⟨"https://github.com/a/b", "tok", "key", 2⟩

/-! ## Helper lemmas -/

/-- The summarizer returns empty fields for the empty diff without
consulting the model oracle. -/
lemma ask_gemini_empty (m : String → Option String) :
    ask_gemini m "" = ("", "") := rfl

/-- One unfolding of the collection loop when fuel remains. -/
lemma collectLoop_succ (listing : Nat → Except Unit (List PR)) (n : Int)
    (fuel page reqs : Nat) (acc : List PR) :
    collectLoop listing n (fuel + 1) page acc reqs =
      if (acc.length : Int) < n then
        match listing page with
        | .error _ => some ⟨acc, reqs + 1, true⟩
        | .ok data =>
          if data.isEmpty then some ⟨acc, reqs + 1, false⟩
          else collectLoop listing n fuel (page + 1) (takeMerged n acc data) (reqs + 1)
      else
        some ⟨acc, reqs, false⟩ := rfl

/-- With any remaining fuel, a listing failure stops the loop at once,
flags the printed diagnostic, and hands back the accumulator gathered so
far. -/
lemma collectLoop_error (listing : Nat → Except Unit (List PR)) (n : Int)
    (fuel page reqs : Nat) (acc : List PR)
    (herr : listing page = .error ()) (hlt : (acc.length : Int) < n)
    (hfuel : 1 ≤ fuel) :
    collectLoop listing n fuel page acc reqs = some ⟨acc, reqs + 1, true⟩ := by
  obtain ⟨f, rfl⟩ : ∃ f, fuel = f + 1 := ⟨fuel - 1, by omega⟩
  rw [collectLoop_succ, if_pos hlt, herr]

/-- One unfolding of the collection loop on a successful page fetch
while still short of the target. -/
lemma collectLoop_step_ok (listing : Nat → Except Unit (List PR)) (n : Int)
    (fuel page reqs : Nat) (acc data : List PR)
    (hfetch : listing page = .ok data) (hlt : (acc.length : Int) < n) :
    collectLoop listing n (fuel + 1) page acc reqs =
      if data.isEmpty then some ⟨acc, reqs + 1, false⟩
      else collectLoop listing n fuel (page + 1) (takeMerged n acc data)
        (reqs + 1) := by
  rw [collectLoop_succ, if_pos hlt, hfetch]

/-- The inner page scan characterised: starting strictly below the
target, it appends exactly the merged PRs of the page in page order,
truncated to the missing count. -/
lemma takeMerged_eq (n : Int) (data : List PR) :
    ∀ acc : List PR, (acc.length : Int) < n →
      takeMerged n acc data =
        acc ++ (data.filter (fun pr => pr.merged_at.isSome)).take
          (n.toNat - acc.length) := by
  induction data with
  | nil => intro acc h; simp [takeMerged]
  | cons pr rest ih =>
    intro acc h
    by_cases hm : pr.merged_at.isSome
    · by_cases he : ((acc ++ [pr]).length : Int) = n
      · have h1 : n.toNat - acc.length = 1 := by
          simp only [List.length_append, List.length_singleton] at he
          push_cast at he
          omega
        simp only [takeMerged, hm, if_true, he, if_pos]
        simp [List.filter_cons, hm, h1]
      · have h2 : (((acc ++ [pr]).length : Nat) : Int) < n := by
          simp only [List.length_append, List.length_singleton] at he ⊢
          push_cast at he ⊢
          omega
        obtain ⟨k, hk⟩ : ∃ k, n.toNat - acc.length = k + 1 :=
          ⟨n.toNat - acc.length - 1, by omega⟩
        have hk2 : n.toNat - (acc ++ [pr]).length = k := by
          simp only [List.length_append, List.length_singleton]
          omega
        simp only [takeMerged, hm, if_true, he, if_neg, if_false]
        rw [ih (acc ++ [pr]) h2, hk2, List.filter_cons, hk]
        simp [hm, List.take_succ_cons]
    · simp only [takeMerged, hm]
      rw [if_neg (by simp [hm]), ih acc h, List.filter_cons]
      simp [hm]

/-- Characterisation of the collection loop over a well-formed finite
listing, from an arbitrary page with an arbitrary accumulator: given
enough fuel it terminates without listing error, its merged list extends
the accumulator with exactly the next merged PRs of the remaining
listing (truncated to the missing count), and its page requests stay
within `pageBound` of the remaining length. -/
lemma collectLoop_listingOf (n : Int) (items : List PR) :
    ∀ fuel page acc reqs,
      1 ≤ page →
      (items.drop ((page - 1) * 100)).length + 1 ≤ fuel →
      ∃ st, collectLoop (listingOf items) n fuel page acc reqs = some st ∧
        st.merged = acc ++ ((items.drop ((page - 1) * 100)).filter
            (fun pr => pr.merged_at.isSome)).take (n.toNat - acc.length) ∧
        st.listingError = false ∧
        st.pagesRequested ≤
          reqs + pageBound (items.drop ((page - 1) * 100)).length := by
  intro fuel
  induction fuel with
  | zero => intro page acc reqs hpage hfuel; omega
  | succ f ih =>
    intro page acc reqs hpage hfuel
    by_cases hlt : (acc.length : Int) < n
    · rw [collectLoop_step_ok (listingOf items) n f page reqs acc
        ((items.drop ((page - 1) * 100)).take 100) rfl hlt]
      by_cases hrem : items.drop ((page - 1) * 100) = []
      · rw [hrem]
        simp only [List.take_nil, List.isEmpty_nil, if_true]
        refine ⟨⟨acc, reqs + 1, false⟩, rfl, ?_, rfl, ?_⟩
        · simp [hrem]
        · simp only [hrem, List.length_nil, pageBound]
          omega
      · have hL1 : 1 ≤ (items.drop ((page - 1) * 100)).length :=
          List.length_pos.mpr hrem
        have hne : ¬ ((items.drop ((page - 1) * 100)).take 100).isEmpty = true := by
          simp [List.isEmpty_iff, List.take_eq_nil_iff, hrem]
        rw [if_neg hne]
        have hdrop : items.drop ((page + 1 - 1) * 100) =
            (items.drop ((page - 1) * 100)).drop 100 := by
          rw [List.drop_drop]
          congr 1
          omega
        have hlen2 : (items.drop ((page + 1 - 1) * 100)).length =
            (items.drop ((page - 1) * 100)).length - 100 := by
          rw [hdrop, List.length_drop]
        have hfuel' : (items.drop ((page + 1 - 1) * 100)).length + 1 ≤ f := by
          omega
        obtain ⟨st, h1, h2, h3, h4⟩ :=
          ih (page + 1) (takeMerged n acc ((items.drop ((page - 1) * 100)).take 100))
            (reqs + 1) (by omega) hfuel'
        refine ⟨st, h1, ?_, h3, ?_⟩
        · rw [h2, hdrop,
            takeMerged_eq n ((items.drop ((page - 1) * 100)).take 100) acc hlt]
          have hidx : n.toNat -
              (acc ++ (((items.drop ((page - 1) * 100)).take 100).filter
                (fun pr => pr.merged_at.isSome)).take (n.toNat - acc.length)).length =
              (n.toNat - acc.length) -
                (((items.drop ((page - 1) * 100)).take 100).filter
                  (fun pr => pr.merged_at.isSome)).length := by
            simp only [List.length_append, List.length_take]
            omega
          rw [hidx]
          conv_rhs =>
            rw [← List.take_append_drop 100 (items.drop ((page - 1) * 100)),
              List.filter_append, List.take_append_eq_append_take,
              ← List.append_assoc]
        · rw [hlen2] at h4
          have hb : (reqs + 1) +
              pageBound ((items.drop ((page - 1) * 100)).length - 100) ≤
              reqs + pageBound (items.drop ((page - 1) * 100)).length := by
            simp only [pageBound]
            omega
          omega
    · rw [collectLoop_succ, if_neg hlt]
      have hz : n.toNat - acc.length = 0 := by omega
      refine ⟨⟨acc, reqs, false⟩, rfl, by simp [hz], rfl, ?_⟩
      simp only [pageBound]
      omega

/-- The line scan is a left fold: scanning a concatenation scans the
first part and feeds its state into the scan of the second. -/
lemma parseLines_append (xs ys : List (List Char)) :
    ∀ ts, parseLines (xs ++ ys) ts = parseLines ys (parseLines xs ts) := by
  induction xs with
  | nil => intro ts; rfl
  | cons l rest ih =>
    intro ts
    simp only [List.cons_append, parseLines]
    by_cases h1 : pyStartswith titleTag (pyStrip l)
    · rw [if_pos h1, if_pos h1]; exact ih _
    · rw [if_neg h1, if_neg h1]
      by_cases h2 : pyStartswith summaryTag (pyStrip l)
      · rw [if_pos h2, if_pos h2]; exact ih _
      · rw [if_neg h2, if_neg h2]; exact ih _

/-- The title field produced by the line scan is determined by the LAST
stripped line starting with `TITLE:` (or the initial value when no line
matches). -/
lemma parseLines_fst (lines : List (List Char)) (t s : List Char) :
    (parseLines lines (t, s)).1 =
      ((lines.map pyStrip).filter
        (fun l => pyStartswith titleTag l)).getLast?.elim
        t (fun l => pyStrip (pyReplace titleTag l)) := by
  induction lines using List.reverseRecOn with
  | nil => rfl
  | append_singleton xs x ih =>
    rw [parseLines_append]
    simp only [List.map_append, List.filter_append, List.map_cons, List.map_nil]
    by_cases h1 : pyStartswith titleTag (pyStrip x)
    · have hstep : parseLines [x] (parseLines xs (t, s)) =
          (pyStrip (pyReplace titleTag (pyStrip x)), (parseLines xs (t, s)).2) := by
        simp only [parseLines]
        rw [if_pos h1]
      have hf : ([pyStrip x] : List (List Char)).filter
          (fun l => pyStartswith titleTag l) = [pyStrip x] := by
        simp [List.filter_cons, h1]
      rw [hstep, hf, List.getLast?_concat]
      rfl
    · have hstep : (parseLines [x] (parseLines xs (t, s))).1 =
          (parseLines xs (t, s)).1 := by
        simp only [parseLines]
        rw [if_neg h1]
        by_cases h2 : pyStartswith summaryTag (pyStrip x)
        · rw [if_pos h2]
        · rw [if_neg h2]
      have hf : ([pyStrip x] : List (List Char)).filter
          (fun l => pyStartswith titleTag l) = [] := by
        simp [List.filter_cons, h1]
      rw [hstep, hf, List.append_nil, ih]

/-- The summary field produced by the line scan is determined by the
LAST stripped line that starts with `SUMMARY:` without starting with
`TITLE:` (or the initial value when no line matches). -/
lemma parseLines_snd (lines : List (List Char)) (t s : List Char) :
    (parseLines lines (t, s)).2 =
      ((lines.map pyStrip).filter
        (fun l => !pyStartswith titleTag l && pyStartswith summaryTag l)).getLast?.elim
        s (fun l => pyStrip (pyReplace summaryTag l)) := by
  induction lines using List.reverseRecOn with
  | nil => rfl
  | append_singleton xs x ih =>
    rw [parseLines_append]
    simp only [List.map_append, List.filter_append, List.map_cons, List.map_nil]
    by_cases h1 : pyStartswith titleTag (pyStrip x)
    · have hstep : (parseLines [x] (parseLines xs (t, s))).2 =
          (parseLines xs (t, s)).2 := by
        simp only [parseLines]
        rw [if_pos h1]
      have hf : ([pyStrip x] : List (List Char)).filter
          (fun l => !pyStartswith titleTag l && pyStartswith summaryTag l) = [] := by
        simp [List.filter_cons, h1]
      rw [hstep, hf, List.append_nil, ih]
    · by_cases h2 : pyStartswith summaryTag (pyStrip x)
      · have hstep : parseLines [x] (parseLines xs (t, s)) =
            ((parseLines xs (t, s)).1,
              pyStrip (pyReplace summaryTag (pyStrip x))) := by
          simp only [parseLines]
          rw [if_neg h1, if_pos h2]
        have hf : ([pyStrip x] : List (List Char)).filter
            (fun l => !pyStartswith titleTag l && pyStartswith summaryTag l) =
            [pyStrip x] := by
          simp [List.filter_cons, h1, h2]
        rw [hstep, hf, List.getLast?_concat]
        rfl
      · have hstep : (parseLines [x] (parseLines xs (t, s))).2 =
            (parseLines xs (t, s)).2 := by
          simp only [parseLines]
          rw [if_neg h1, if_neg h2]
        have hf : ([pyStrip x] : List (List Char)).filter
            (fun l => !pyStartswith titleTag l && pyStartswith summaryTag l) =
            [] := by
          simp [List.filter_cons, h1, h2]
        rw [hstep, hf, List.append_nil, ih]

/-! ## Claims -/

/-- Claim C8 (confirmed): for the empty diff text, `ask_gemini` returns
the empty pair immediately; the result does not depend on the model
oracle at all, so no model invocation can influence it. -/
theorem summarizer_empty_diff_no_model :
    ∀ m₁ m₂ : String → Option String,
      ask_gemini m₁ "" = ("", "") ∧ ask_gemini m₁ "" = ask_gemini m₂ "" :=
  fun _ _ => ⟨rfl, rfl⟩

/-- Claim C6, counterexample: the parser does not skip empty segments
and does not ignore a trailing separator.  On a URL ending in a slash it
returns the last segment and the empty string, which differs both from
the last-two-non-empty reading and from the slashless URL's result. -/
theorem parse_repo_trailing_separator_refuted :
    parse_repo "https://github.com/a/b/" = some ("b", "") ∧
    parse_repo "https://github.com/a/b/" ≠ some ("a", "b") ∧
    parse_repo "https://github.com/a/b/" ≠ parse_repo "https://github.com/a/b" := by
  decide

/-- Claim C6 as amended: for every URL-like string whose stripped form
splits into at least two segments, `parse_repo` returns the last two raw
segments (empty segments included), i.e. the segment at index
`length - 2` and the final segment; a trailing separator therefore
yields an empty name instead of being ignored. -/
theorem parse_repo_last_two_raw_segments (url : String)
    (h : 2 ≤ (splitOnChar '/' (pyStrip url.toList)).length) :
    ∃ p q,
      ((splitOnChar '/' (pyStrip url.toList)).map (fun l => String.mk l)).get?
          ((splitOnChar '/' (pyStrip url.toList)).length - 2) = some p ∧
      ((splitOnChar '/' (pyStrip url.toList)).map (fun l => String.mk l)).getLast? =
          some q ∧
      parse_repo url = some (p, q) := by
  have hm : 2 ≤ ((splitOnChar '/' (pyStrip url.toList)).map
      (fun l => String.mk l)).length := by simpa using h
  refine ⟨((splitOnChar '/' (pyStrip url.toList)).map (fun l => String.mk l)).get
      ⟨((splitOnChar '/' (pyStrip url.toList)).map (fun l => String.mk l)).length - 2,
        by omega⟩,
    ((splitOnChar '/' (pyStrip url.toList)).map (fun l => String.mk l)).get
      ⟨((splitOnChar '/' (pyStrip url.toList)).map (fun l => String.mk l)).length - 1,
        by omega⟩, ?_, ?_, ?_⟩
  · have he : (splitOnChar '/' (pyStrip url.toList)).length - 2 =
        ((splitOnChar '/' (pyStrip url.toList)).map
          (fun l => String.mk l)).length - 2 := by
      simp only [List.length_map]
    rw [he]
    exact List.get?_eq_get _
  · rw [List.getLast?_eq_getElem?,
      List.getElem?_eq_getElem (by simp only [List.length_map]; omega)]
    simp [List.get_eq_getElem]
  · simp only [parse_repo]
    rw [dif_pos hm]

/-- Witness for the amended claim C6 at a concrete input. -/
theorem parse_repo_last_two_raw_segments_witness :
    2 ≤ (splitOnChar '/' (pyStrip ("x/a/b").toList)).length ∧
    (∃ p q,
      ((splitOnChar '/' (pyStrip ("x/a/b").toList)).map (fun l => String.mk l)).get?
          ((splitOnChar '/' (pyStrip ("x/a/b").toList)).length - 2) = some p ∧
      ((splitOnChar '/' (pyStrip ("x/a/b").toList)).map (fun l => String.mk l)).getLast? =
          some q ∧
      parse_repo "x/a/b" = some (p, q)) :=
  ⟨by decide, parse_repo_last_two_raw_segments "x/a/b" (by decide)⟩

/-- Claim C7, counterexample: on an input with a single path segment the
parser does not produce a reported error; the run aborts with the
uncaught IndexError (modelled by `none` from `parse_repo` and the
`crash` outcome of `main`). -/
theorem parse_repo_invalid_reference_refuted :
    parse_repo "abc" = none ∧
    main ⟨"abc", "tok", "key", 2⟩ (fun _ => .ok []) diffFailAll (fun _ => none) 3 =
      .crash := by
  decide

/-- Claim C7 as amended: for every input whose stripped form has fewer
than two path segments, `parse_repo` hits Python's negative indexing out
of range, an uncaught exception (`none`), and a run of `main` on such a
URL (with the other inputs present) aborts as a crash rather than a
reported error. -/
theorem parse_repo_short_input_crash (cfg : Config)
    (listing : Nat → Except Unit (List PR)) (diffO : Nat → Option String)
    (modelO : String → Option String) (fuel : Nat)
    (h : (splitOnChar '/' (pyStrip cfg.repo_url.toList)).length < 2)
    (h1 : ¬ cfg.repo_url = "") (h2 : ¬ cfg.github_token = "")
    (h3 : ¬ cfg.gemini_key = "") :
    parse_repo cfg.repo_url = none ∧
    main cfg listing diffO modelO fuel = .crash := by
  have hp : parse_repo cfg.repo_url = none := by
    simp only [parse_repo]
    rw [dif_neg]
    simp only [List.length_map]
    omega
  refine ⟨hp, ?_⟩
  simp only [main, h1, h2, h3, hp]
  simp

/-- Witness for the amended claim C7 at a concrete input. -/
theorem parse_repo_short_input_crash_witness :
    (splitOnChar '/' (pyStrip ("abc").toList)).length < 2 ∧
    ¬ "abc" = "" ∧ ¬ "tok" = "" ∧ ¬ "key" = "" ∧
    (parse_repo "abc" = none ∧
      main ⟨"abc", "tok", "key", 2⟩ (fun _ => .ok []) diffFailAll
        (fun _ => none) 3 = .crash) :=
  ⟨by decide, by decide, by decide, by decide,
    parse_repo_short_input_crash ⟨"abc", "tok", "key", 2⟩ (fun _ => .ok [])
      diffFailAll (fun _ => none) 3 (by decide) (by decide) (by decide) (by decide)⟩

/-- Claim C5, counterexample: with the three string inputs present but a
target count of 0 (not a positive integer), `main` does not fail fast
with the configuration message; it proceeds into the pipeline and exits
through the no-merged-PRs path instead. -/
theorem config_count_validation_refuted :
    main ⟨"https://github.com/a/b", "tok", "key", 0⟩ (fun _ => .ok [])
        diffFailAll (fun _ => none) 3 ≠ .configError ∧
    main ⟨"https://github.com/a/b", "tok", "key", 0⟩ (fun _ => .ok [])
        diffFailAll (fun _ => none) 3 = .noMerged 0 false := by
  decide

/-- Claim C5 as amended: before driving the pipeline the orchestrator
only validates that the repository URL, credential token, and model key
are non-empty; whenever any of those three is missing it fails fast with
the descriptive message and writes no report (the target count is not
validated at all). -/
theorem config_validation_presence_only (cfg : Config)
    (listing : Nat → Except Unit (List PR)) (diffO : Nat → Option String)
    (modelO : String → Option String) (fuel : Nat)
    (h : cfg.repo_url = "" ∨ cfg.github_token = "" ∨ cfg.gemini_key = "") :
    main cfg listing diffO modelO fuel = .configError := by
  rcases h with h | h | h <;> simp [main, h]

/-- Witness for the amended claim C5 at a concrete input. -/
theorem config_validation_presence_only_witness :
    (("" : String) = "" ∨ ("tok" : String) = "" ∨ ("key" : String) = "") ∧
    main ⟨"", "tok", "key", 2⟩ (fun _ => .ok []) diffFailAll (fun _ => none) 3 =
      .configError :=
  ⟨Or.inl rfl,
    config_validation_presence_only ⟨"", "tok", "key", 2⟩ (fun _ => .ok [])
      diffFailAll (fun _ => none) 3 (Or.inl rfl)⟩

/-- Claim C10 (confirmed): when the three string inputs are present (and
the URL parses) but the target count is zero or negative, `main` issues
no listing request at all, collects nothing, exits through the
no-merged-PRs message, and never reaches the report-writing step. -/
theorem nonpositive_count_no_requests (cfg : Config)
    (listing : Nat → Except Unit (List PR)) (diffO : Nat → Option String)
    (modelO : String → Option String) (fuel : Nat)
    (h1 : ¬ cfg.repo_url = "") (h2 : ¬ cfg.github_token = "")
    (h3 : ¬ cfg.gemini_key = "")
    (h4 : 2 ≤ (splitOnChar '/' (pyStrip cfg.repo_url.toList)).length)
    (h5 : cfg.n_prs ≤ 0) (h6 : 1 ≤ fuel) :
    main cfg listing diffO modelO fuel = .noMerged 0 false := by
  obtain ⟨f, rfl⟩ : ∃ f, fuel = f + 1 := ⟨fuel - 1, by omega⟩
  have hp : ∃ pq, parse_repo cfg.repo_url = some pq := by
    simp only [parse_repo]
    rw [dif_pos (by simpa using h4)]
    exact ⟨_, rfl⟩
  obtain ⟨pq, hp⟩ := hp
  have hc : collectLoop listing cfg.n_prs (f + 1) 1 [] 0 = some ⟨[], 0, false⟩ := by
    rw [collectLoop_succ, if_neg]
    simp only [List.length_nil]
    omega
  simp [main, h1, h2, h3, hp, hc]

/-- Witness for claim C10 at a concrete input. -/
theorem nonpositive_count_no_requests_witness :
    ¬ ("https://github.com/a/b" : String) = "" ∧ ¬ ("tok" : String) = "" ∧
    ¬ ("key" : String) = "" ∧
    2 ≤ (splitOnChar '/' (pyStrip ("https://github.com/a/b").toList)).length ∧
    (0 : Int) ≤ 0 ∧ 1 ≤ 3 ∧
    main ⟨"https://github.com/a/b", "tok", "key", 0⟩ (fun _ => .ok [])
      diffFailAll (fun _ => none) 3 = .noMerged 0 false :=
  ⟨by decide, by decide, by decide, by decide, by decide, by decide,
    nonpositive_count_no_requests ⟨"https://github.com/a/b", "tok", "key", 0⟩
      (fun _ => .ok []) diffFailAll (fun _ => none) 3 (by decide) (by decide)
      (by decide) (by decide) (by decide) (by decide)⟩

/-- Claim C1 (confirmed): for every positive target count and every
finite listing of closed PRs, the collection loop terminates without
listing error and returns exactly the first `min(N, total merged)`
merged PRs in the listing's own order — the prefix of length `N.toNat`
of the merged-filtered listing — so each returned record has a merge
timestamp, relative order is preserved, exactly `N` are returned when at
least `N` merged PRs exist (across however many pages), and the full
total is returned when `N` exceeds it. -/
theorem collect_returns_min_merged (items : List PR) (n : Int) (_hn : 0 < n) :
    ∃ st, collectPRs items n = some st ∧ st.listingError = false ∧
      st.merged = (items.filter (fun pr => pr.merged_at.isSome)).take n.toNat ∧
      st.merged.length =
        min n.toNat (items.filter (fun pr => pr.merged_at.isSome)).length ∧
      ∀ pr ∈ st.merged, pr.merged_at.isSome := by
  obtain ⟨st, h1, h2, h3, h4⟩ :=
    collectLoop_listingOf n items (items.length + 1) 1 [] 0 (le_refl 1) (by simp)
  have hm : st.merged = (items.filter (fun pr => pr.merged_at.isSome)).take n.toNat := by
    simpa using h2
  refine ⟨st, h1, h3, hm, ?_, ?_⟩
  · rw [hm, List.length_take]
  · intro pr hpr
    rw [hm] at hpr
    have h5 : pr ∈ items.filter (fun pr => pr.merged_at.isSome) :=
      List.take_subset n.toNat (items.filter (fun pr => pr.merged_at.isSome)) hpr
    exact (List.mem_filter.mp h5).2

/-- Witness for claim C1 at a concrete multi-PR listing. -/
theorem collect_returns_min_merged_witness :
    (0 : Int) < 2 ∧
    (∃ st, collectPRs [prM, prU, prM2] 2 = some st ∧ st.listingError = false ∧
      st.merged = (([prM, prU, prM2] : List PR).filter
        (fun pr => pr.merged_at.isSome)).take (2 : Int).toNat ∧
      st.merged.length = min (2 : Int).toNat
        (([prM, prU, prM2] : List PR).filter
          (fun pr => pr.merged_at.isSome)).length ∧
      ∀ pr ∈ st.merged, pr.merged_at.isSome) :=
  ⟨by decide, collect_returns_min_merged [prM, prU, prM2] 2 (by decide)⟩

/-- Claim C9, counterexample: the source requests one page beyond a
final partial page, so the claimed bound `total / 100 + 1` fails already
on a one-item listing asked for two PRs — two page requests are issued
while the claimed bound is one. -/
theorem collector_page_bound_refuted :
    collectPRs [prM] 2 = some ⟨[prM], 2, false⟩ ∧
    ¬ (2 ≤ ([prM] : List PR).length / 100 + 1) := by
  decide

/-- Claim C9 as amended: for every finite listing the collection loop
terminates — any fuel of at least `total + 1` iterations is enough to
drive it to completion — and the number of page requests issued is
bounded by `(total + 99) / 100 + 1`, the number of 100-item pages
rounded UP plus one trailing probe (not `total / 100 + 1`). -/
theorem collector_terminates_page_bound (items : List PR) (n : Int) (fuel : Nat)
    (hfuel : items.length + 1 ≤ fuel) :
    ∃ st, collectLoop (listingOf items) n fuel 1 [] 0 = some st ∧
      st.pagesRequested ≤ (items.length + 99) / 100 + 1 := by
  obtain ⟨st, h1, _h2, _h3, h4⟩ :=
    collectLoop_listingOf n items fuel 1 [] 0 (le_refl 1) (by simpa using hfuel)
  refine ⟨st, h1, ?_⟩
  have hl : (items.drop ((1 - 1) * 100)).length = items.length := by simp
  rw [hl] at h4
  simp only [pageBound] at h4
  omega

/-- Witness for the amended claim C9 at a concrete listing. -/
theorem collector_terminates_page_bound_witness :
    ([prM] : List PR).length + 1 ≤ 2 ∧
    (∃ st, collectLoop (listingOf [prM]) 2 2 1 [] 0 = some st ∧
      st.pagesRequested ≤ (([prM] : List PR).length + 99) / 100 + 1) :=
  ⟨by decide, collector_terminates_page_bound [prM] 2 2 (by decide)⟩

/-- Claim C2, counterexample: the parser is last-match-wins, not
first-match-wins, and it removes every occurrence of the label from the
line rather than taking the remainder after the prefix.  On the input
with lines `TITLE: a` and `TITLE: b TITLE: c` the claim predicts title
`a`; the code produces `b  c`. -/
theorem response_parser_first_match_refuted :
    parseResponse "TITLE: a\nTITLE: b TITLE: c" = ("b  c", "") ∧
    parseResponse "TITLE: a\nTITLE: b TITLE: c" ≠ ("a", "") := by
  decide

/-- Claim C2 as amended: for every model-response text, the LAST
stripped line beginning with `TITLE:` determines the title — the line
with every occurrence of the literal `TITLE:` removed, then trimmed —
and likewise the LAST line beginning with `SUMMARY:` (and not with
`TITLE:`) determines the summary; all other lines are ignored and an
absent label leaves its field as the empty string. -/
theorem response_parser_last_match_wins (text : String) :
    parseResponse text =
      (String.mk ((((splitOnChar '\n' text.toList).map pyStrip).filter
          (fun l => pyStartswith titleTag l)).getLast?.elim []
          (fun l => pyStrip (pyReplace titleTag l))),
       String.mk ((((splitOnChar '\n' text.toList).map pyStrip).filter
          (fun l => !pyStartswith titleTag l && pyStartswith summaryTag l)).getLast?.elim []
          (fun l => pyStrip (pyReplace summaryTag l)))) := by
  simp only [parseResponse]
  rw [parseLines_fst (splitOnChar '\n' text.toList) [] [],
    parseLines_snd (splitOnChar '\n' text.toList) [] []]

/-- Claim C3 (confirmed): the row-assembly loop is a per-PR map, so a
diff-fetch failure for one PR (non-success status, yielding the empty
diff) still produces a report row for that PR, in its original position,
with empty generated title and summary; no row is dropped and the other
PRs are unaffected. -/
theorem diff_failure_keeps_row (diffO : Nat → Option String)
    (modelO : String → Option String) (prs : List PR) (i : Nat)
    (h : i < prs.length)
    (hfail : diffO ((prs.get ⟨i, h⟩).number) = none) :
    (buildRows diffO modelO prs).length = prs.length ∧
    (buildRows diffO modelO prs).get? i =
      some ⟨(prs.get ⟨i, h⟩).number, (prs.get ⟨i, h⟩).title.getD "", "",
            (prs.get ⟨i, h⟩).body.getD "", ""⟩ := by
  constructor
  · simp [buildRows]
  · simp only [buildRows, List.get?_map]
    rw [List.get?_eq_get h]
    simp only [List.get_eq_getElem] at hfail ⊢
    have hd : get_pr_diff diffO (prs[i].number) = "" := by
      unfold get_pr_diff
      rw [hfail]
    simp only [Option.map_some', Option.some.injEq, hd, ask_gemini_empty]

/-- Witness for claim C3 at a concrete input whose diff fetch fails. -/
theorem diff_failure_keeps_row_witness :
    0 < ([prM] : List PR).length ∧
    diffFailAll ((([prM] : List PR).get ⟨0, by decide⟩).number) = none ∧
    ((buildRows diffFailAll modelAlways [prM]).length =
        ([prM] : List PR).length ∧
      (buildRows diffFailAll modelAlways [prM]).get? 0 =
        some ⟨(([prM] : List PR).get ⟨0, by decide⟩).number,
              (([prM] : List PR).get ⟨0, by decide⟩).title.getD "", "",
              (([prM] : List PR).get ⟨0, by decide⟩).body.getD "", ""⟩) :=
  ⟨by decide, rfl,
    diff_failure_keeps_row diffFailAll modelAlways [prM] 0 (by decide) rfl⟩

/-- Claim C4, counterexample: when the second page request fails, the
collector breaks with the diagnostic flag set but hands the partial set
(one PR) to the rest of the pipeline, which goes on to produce a report
from it — the error is not reported to the caller in place of the
partial set. -/
theorem listing_failure_partial_refuted :
    collectLoop listingFail 2 5 1 [] 0 = some ⟨[prM], 2, true⟩ ∧
    main cfgOk listingFail diffFailAll (fun _ => none) 5 =
      .report [⟨1, "t", "", "b", ""⟩] 2 true := by
  decide

/-- Claim C4 as amended: when a page request returns a non-success
status while the loop is still short of its target, the collector stops
collection at once, prints a diagnostic (the error flag), and returns
the partial set gathered so far, which the pipeline then consumes
normally. -/
theorem listing_failure_keeps_partial (listing : Nat → Except Unit (List PR))
    (n : Int) (fuel page reqs : Nat) (acc : List PR)
    (herr : listing page = .error ()) (hlt : (acc.length : Int) < n)
    (hfuel : 1 ≤ fuel) :
    collectLoop listing n fuel page acc reqs = some ⟨acc, reqs + 1, true⟩ := by
  exact collectLoop_error listing n fuel page reqs acc herr hlt hfuel

/-- Witness for the amended claim C4 at a concrete input. -/
theorem listing_failure_keeps_partial_witness :
    listingFail 2 = .error () ∧ (([prM] : List PR).length : Int) < 2 ∧ 1 ≤ 3 ∧
    collectLoop listingFail 2 3 2 [prM] 1 = some ⟨[prM], 2, true⟩ :=
  ⟨rfl, by decide, by decide,
    listing_failure_keeps_partial listingFail 2 3 2 1 [prM] rfl
      (by decide) (by decide)⟩

end PRHarvest
